import Mathlib

/-!
Verification development for the async NOWPayments API client
(`src/nowpayments/__init__.py`). The Python class `NOWPayments` is embedded
shallowly: the client instance becomes a structure, each method becomes a
Lean function, the HTTP transport and the JSON codec (both delegated by the
source to external libraries) become explicit function parameters, and
Python exceptions become `Except` errors.
-/

set_option autoImplicit false

/-- A Python value as it appears in request bodies and positional arguments
of this client: the source annotates them `Union[str, float, bool, int]`;
floats do not occur in the examined behaviours, so numbers are `Int`. -/
inductive PyVal where
  | str : String → PyVal
  | int : Int → PyVal
  | bool : Bool → PyVal
deriving DecidableEq, Repr

/-- Python's `str()` on the values above, as used by `str.format` when a
positional argument is substituted into a template. -/
def pyStr : PyVal → String
  | .str s => s
  | .int n => toString n
  | .bool b => if b then "True" else "False"

/-- The Python exceptions the client's methods can raise:
`AssertionError` from `assert endpoint in self.endpoints`, `IndexError`
from `str.format` with too few arguments, `json.JSONDecodeError` from
`json.loads`, and `TypeError` from the call boundary of `create_payment`
when a keyword argument duplicates one of its named parameters. -/
inductive PyErr where
  | assertionError : PyErr
  | formatError : PyErr
  | jsonError : PyErr
  | typeError : PyErr
deriving DecidableEq, Repr

/-- What a call to `get`/`post` can return when it does not raise: the
resolved URL string (debug mode), a decoded JSON value, or Python's
implicit `None` (the fall-through of `get` on a non-200 status). -/
inductive PyReturn (J : Type) where
  | url : String → PyReturn J
  | json : J → PyReturn J
  | noneVal : PyReturn J
deriving DecidableEq, Repr

/-- An outgoing HTTP request as handed to the transport: the URL, the
headers dict, and (for POST) the body dict; GET requests carry `[]`. -/
structure HttpRequest where
  url : String
  headers : List (String × String)
  data : List (String × PyVal)
deriving DecidableEq, Repr

/-- An HTTP response as the transport returns it: status code and body
text. -/
structure HttpResponse where
  status : Nat
  text : String
deriving DecidableEq, Repr

/-- Core of Python `str.format` specialised to the templates of this
client, whose only brace sequences are the empty placeholder (written
`\x7b\x7d`): each placeholder consumes the next positional argument
(substituted text is not re-scanned, as in Python); a placeholder with no
argument left is an `IndexError`, modelled as `none`; surplus arguments
are ignored. -/
def pyFormatAux : List Char → List PyVal → Option (List Char)
  | [], _ => some []
  | '\x7b' :: '\x7d' :: rest, a :: as =>
      (pyFormatAux rest as).map (fun t => (pyStr a).data ++ t)
  | '\x7b' :: '\x7d' :: _, [] => none
  | c :: rest, as => (pyFormatAux rest as).map (fun t => c :: t)

/-- Python `template.format(*args)` on this client's templates. -/
def pyFormat (s : String) (args : List PyVal) : Option String :=
  (pyFormatAux s.data args).map List.asString

/-- Membership in the regex character class `[A-z0-9]` of `key_regex`
(note: `A-z`, not `A-Za-z` — it also contains the ASCII characters
between `Z` and `a`). -/
def charInClass (c : Char) : Bool :=
  ('A' ≤ c && c ≤ 'z') || ('0' ≤ c && c ≤ '9')

/-- Python `re.match(key_regex, key)` succeeding, with
`key_regex = r"([A-z0-9]{7}-[A-z0-9]{7}-[A-z0-9]{7}-[A-z0-9]{7})"`:
`re.match` anchors only at the start, so it succeeds exactly when the
first 31 characters of `key` are four 7-character `[A-z0-9]` groups
separated by dashes; anything after position 30 is unconstrained. -/
def keyRegexMatch (key : String) : Bool :=
  let cs := key.data
  decide (31 ≤ cs.length) &&
    (List.range 31).all (fun i =>
      if i = 7 || i = 15 || i = 23 then cs.getD i ' ' = '-'
      else charInClass (cs.getD i ' '))

/-- The client instance: the state `__init__` leaves behind on success. -/
structure NOWPayments where
  key : String
  headers : List (String × String)
  api_url : String
  debug_mode : Bool
deriving DecidableEq, Repr

/-- Class constant `NORMAL_URL`. -/
def NOWPayments.NORMAL_URL : String := "https://api.nowpayments.io/v1/\x7b\x7d"

/-- Class constant `SANDBOX_URL`. -/
def NOWPayments.SANDBOX_URL : String := "https://api-sandbox.nowpayments.io/v1/\x7b\x7d"

/-- Class constant `endpoints`: the fixed operation-name → URL-template
registry, in source order. -/
def NOWPayments.endpoints : List (String × String) :=
  [("STATUS", "status"),
   ("CURRENCIES", "currencies"),
   ("MERCHANT_COINS", "merchant/coins"),
   ("ESTIMATE", "estimate?amount=\x7b\x7d&currency_from=\x7b\x7d&currency_to=\x7b\x7d"),
   ("PAYMENT", "payment"),
   ("PAYMENT_STATUS", "payment/\x7b\x7d"),
   ("MIN_AMOUNT", "min-amount?currency_from=\x7b\x7d&currency_to=\x7b\x7d")]

/-- `__init__(self, key, sandbox=False, debug_mode=False)`. The only
statement that can raise is `match(self.key_regex, key).group(0) == key`:
when `re.match` returns `None`, `.group(0)` raises `AttributeError`,
caught and re-raised as `ValueError("Incorrect API Key format")`. When the
match succeeds, the `== key` comparison is computed and its result
discarded (a bare expression statement), so construction succeeds. -/
def NOWPayments.new (key : String) (sandbox : Bool) (debug_mode : Bool) :
    Except String NOWPayments :=
  if keyRegexMatch key then
    .ok { key := key,
          headers := [("x-api-key", key), ("User-Agent", "nowpay.py")],
          api_url := if sandbox then NOWPayments.SANDBOX_URL else NOWPayments.NORMAL_URL,
          debug_mode := debug_mode }
  else
    .error "Incorrect API Key format"

/-- `create_url(self, endpoint)`: `self.api_url.format(endpoint)`. -/
def NOWPayments.create_url (c : NOWPayments) (endpoint : String) : Option String :=
  pyFormat c.api_url [.str endpoint]

/-- The URL-building prefix shared verbatim by `get` and `post`:
`assert endpoint in self.endpoints`, then
`url = self.create_url(self.endpoints[endpoint])`, then (in `get` only,
modelled here by `args`, which `post` passes as `[]`)
`if len(args) >= 1: url = url.format(*args)`. -/
def NOWPayments.buildUrl (c : NOWPayments) (endpoint : String) (args : List PyVal) :
    Except PyErr String :=
  match NOWPayments.endpoints.lookup endpoint with
  | none => .error .assertionError
  | some tmpl =>
    match c.create_url tmpl with
    | none => .error .formatError
    | some url0 =>
      if 1 ≤ args.length then
        match pyFormat url0 args with
        | none => .error .formatError
        | some url => .ok url
      else
        .ok url0

/-- The enactment of `return json.loads(resp)` common to `get` (on status
200) and `post`: a decodable body is returned as JSON, an undecodable one
raises `json.JSONDecodeError`. -/
def decodeResult {J : Type} : Option J → Except PyErr (PyReturn J)
  | some j => .ok (.json j)
  | none => .error .jsonError

/-- `get(self, endpoint, *args)`: build the URL; in debug mode return it;
otherwise issue a GET carrying `self.headers` through the transport and,
on status 200, return `json.loads` of the body text — on any other status
fall through, returning `None`. `transport` stands for the aiohttp
session, `loads` for `json.loads` (`none` = `JSONDecodeError`). -/
def NOWPayments.get {J : Type} (c : NOWPayments) (endpoint : String) (args : List PyVal)
    (transport : HttpRequest → HttpResponse) (loads : String → Option J) :
    Except PyErr (PyReturn J) :=
  match c.buildUrl endpoint args with
  | .error e => .error e
  | .ok url =>
    if c.debug_mode then
      .ok (.url url)
    else
      let resp := transport { url := url, headers := c.headers, data := [] }
      if resp.status = 200 then
        decodeResult (loads resp.text)
      else
        .ok .noneVal

/-- `post(self, endpoint, data)`: build the URL (no positional-argument
formatting); in debug mode return it; otherwise issue a POST carrying
`self.headers` and `data`, and return `json.loads` of the body text with
no status check at all. -/
def NOWPayments.post {J : Type} (c : NOWPayments) (endpoint : String)
    (data : List (String × PyVal))
    (transport : HttpRequest → HttpResponse) (loads : String → Option J) :
    Except PyErr (PyReturn J) :=
  match c.buildUrl endpoint [] with
  | .error e => .error e
  | .ok url =>
    if c.debug_mode then
      .ok (.url url)
    else
      let resp := transport { url := url, headers := c.headers, data := data }
      decodeResult (loads resp.text)

/-- `status(self)`. -/
def NOWPayments.status {J : Type} (c : NOWPayments)
    (transport : HttpRequest → HttpResponse) (loads : String → Option J) :
    Except PyErr (PyReturn J) :=
  c.get "STATUS" [] transport loads

/-- `currencies(self)`. -/
def NOWPayments.currencies {J : Type} (c : NOWPayments)
    (transport : HttpRequest → HttpResponse) (loads : String → Option J) :
    Except PyErr (PyReturn J) :=
  c.get "CURRENCIES" [] transport loads

/-- `merchant_coins(self)`. -/
def NOWPayments.merchant_coins {J : Type} (c : NOWPayments)
    (transport : HttpRequest → HttpResponse) (loads : String → Option J) :
    Except PyErr (PyReturn J) :=
  c.get "MERCHANT_COINS" [] transport loads

/-- `estimate(self, amount, currency_from, currency_to)`. -/
def NOWPayments.estimate {J : Type} (c : NOWPayments) (amount : PyVal)
    (currency_from currency_to : String)
    (transport : HttpRequest → HttpResponse) (loads : String → Option J) :
    Except PyErr (PyReturn J) :=
  c.get "ESTIMATE" [amount, .str currency_from, .str currency_to] transport loads

/-- `payment_status(self, payment_id)`. -/
def NOWPayments.payment_status {J : Type} (c : NOWPayments) (payment_id : Int)
    (transport : HttpRequest → HttpResponse) (loads : String → Option J) :
    Except PyErr (PyReturn J) :=
  c.get "PAYMENT_STATUS" [.int payment_id] transport loads

/-- `min_amount(self, currency_from, currency_to)`. -/
def NOWPayments.min_amount {J : Type} (c : NOWPayments)
    (currency_from currency_to : String)
    (transport : HttpRequest → HttpResponse) (loads : String → Option J) :
    Except PyErr (PyReturn J) :=
  c.get "MIN_AMOUNT" [PyVal.str currency_from, PyVal.str currency_to] transport loads

/-- Python `dict.__setitem__` on an insertion-ordered association list:
an existing key keeps its position and gets the new value; a new key is
appended. -/
def dictInsert (d : List (String × PyVal)) (k : String) (v : PyVal) :
    List (String × PyVal) :=
  if d.any (fun p => p.1 = k) then
    d.map (fun p => if p.1 = k then (k, v) else p)
  else
    d ++ [(k, v)]

/-- Python `dict.update`: insert the entries of `kvs` left to right. -/
def dictUpdate (d kvs : List (String × PyVal)) : List (String × PyVal) :=
  kvs.foldl (fun acc p => dictInsert acc p.1 p.2) d

/-- The names of the three required positional parameters of
`create_payment`. -/
def requiredPaymentFields : List String :=
  ["price_amount", "price_currency", "pay_currency"]

/-- The `data` dict assembled by `create_payment`: the literal with the
three required fields, then `data.update(**kwargs)`. -/
def NOWPayments.paymentBody (price_amount : PyVal)
    (price_currency pay_currency : String) (kwargs : List (String × PyVal)) :
    List (String × PyVal) :=
  dictUpdate
    [("price_amount", price_amount),
     ("price_currency", .str price_currency),
     ("pay_currency", .str pay_currency)]
    kwargs

/-- `create_payment(self, price_amount, price_currency, pay_currency,
**kwargs)`. A keyword argument named like one of the three positional
parameters is rejected by Python's call machinery with a `TypeError`
before the body runs; otherwise the body dict is assembled and posted to
the `PAYMENT` operation. -/
def NOWPayments.create_payment {J : Type} (c : NOWPayments) (price_amount : PyVal)
    (price_currency pay_currency : String) (kwargs : List (String × PyVal))
    (transport : HttpRequest → HttpResponse) (loads : String → Option J) :
    Except PyErr (PyReturn J) :=
  if kwargs.any (fun p => p.1 ∈ requiredPaymentFields) then
    .error .typeError
  else
    c.post "PAYMENT"
      (NOWPayments.paymentBody price_amount price_currency pay_currency kwargs)
      transport loads

/-- Modelled from the spec: the key pattern the specification states —
`XXXXXXX-XXXXXXX-XXXXXXX-XXXXXXX` where each group is exactly 7
alphanumeric characters and the whole string is the pattern (four
dash-separated alphanumeric groups of length 7, nothing more). Used to
compare the spec's validation contract with the code's actual check. -/
def specKeyOk (key : String) : Bool :=
  let cs := key.data
  cs.length = 31 &&
    (List.range 31).all (fun i =>
      if i = 7 || i = 15 || i = 23 then cs.getD i ' ' = '-'
      else (cs.getD i ' ').isAlphanum)

/-- Python `data[k]` on the insertion-ordered association-list model of a
dict (keys are unique in every dict the client builds, so first-match
lookup agrees with dict semantics). -/
def dictGet : List (String × PyVal) → String → Option PyVal
  | [], _ => none
  | (k2, v) :: rest, k => if k = k2 then some v else dictGet rest k

theorem dictGet_map_overwrite (d : List (String × PyVal)) (k k2 : String) (v : PyVal)
    (h : k ≠ k2) :
    dictGet (d.map (fun p => if p.1 = k2 then (k2, v) else p)) k = dictGet d k := by
  induction d with
  | nil => rfl
  | cons p rest ih =>
    obtain ⟨a, b⟩ := p
    simp only [List.map_cons]
    by_cases hp : a = k2
    · rw [if_pos hp]
      simp only [dictGet]
      rw [if_neg h, if_neg (fun he => h (he.trans hp)), ih]
    · rw [if_neg hp]
      simp only [dictGet, ih]

theorem dictGet_append_single_ne (d : List (String × PyVal)) (k k2 : String) (v : PyVal)
    (h : k ≠ k2) :
    dictGet (d ++ [(k2, v)]) k = dictGet d k := by
  induction d with
  | nil => simp [dictGet, h]
  | cons p rest ih =>
    obtain ⟨a, b⟩ := p
    simp only [List.cons_append, dictGet, List.append_eq, ih]

theorem dictGet_dictInsert_ne (d : List (String × PyVal)) (k k2 : String) (v : PyVal)
    (h : k ≠ k2) :
    dictGet (dictInsert d k2 v) k = dictGet d k := by
  unfold dictInsert
  split
  · exact dictGet_map_overwrite d k k2 v h
  · exact dictGet_append_single_ne d k k2 v h

theorem dictGet_dictUpdate_not_mem (kvs : List (String × PyVal))
    (d : List (String × PyVal)) (k : String) (h : ∀ p ∈ kvs, p.1 ≠ k) :
    dictGet (dictUpdate d kvs) k = dictGet d k := by
  induction kvs generalizing d with
  | nil => rfl
  | cons p rest ih =>
    rw [dictUpdate, List.foldl_cons, ← dictUpdate]
    rw [ih _ (fun q hq => h q (List.mem_cons_of_mem _ hq))]
    exact dictGet_dictInsert_ne d k p.1 p.2
      (fun he => h p (List.mem_cons_self _ _) he.symm)

theorem dictInsert_not_mem (d : List (String × PyVal)) (k : String) (v : PyVal)
    (h : ∀ p ∈ d, p.1 ≠ k) :
    dictInsert d k v = d ++ [(k, v)] := by
  unfold dictInsert
  rw [if_neg]
  intro hc
  simp only [List.any_eq_true, decide_eq_true_eq] at hc
  obtain ⟨p, hp, he⟩ := hc
  exact h p hp he

theorem dictUpdate_eq_append (kvs : List (String × PyVal))
    (d : List (String × PyVal))
    (hdisj : ∀ p ∈ kvs, ∀ q ∈ d, p.1 ≠ q.1)
    (hnodup : (kvs.map Prod.fst).Nodup) :
    dictUpdate d kvs = d ++ kvs := by
  induction kvs generalizing d with
  | nil => simp [dictUpdate]
  | cons p rest ih =>
    obtain ⟨a, b⟩ := p
    rw [List.map_cons, List.nodup_cons] at hnodup
    rw [dictUpdate, List.foldl_cons, ← dictUpdate]
    have h1 : dictInsert d a b = d ++ [(a, b)] :=
      dictInsert_not_mem d a b
        (fun q hq => ((hdisj (a, b) (List.mem_cons_self _ _) q hq).symm : q.1 ≠ a))
    rw [h1, ih (d ++ [(a, b)]) ?hdisj hnodup.2, List.append_assoc, List.singleton_append]
    intro q hq r hr
    rcases List.mem_append.mp hr with hrd | hrs
    · exact hdisj q (List.mem_cons_of_mem _ hq) r hrd
    · rw [List.mem_singleton.mp hrs]
      intro he
      exact hnodup.1 (he ▸ List.mem_map_of_mem Prod.fst hq)

theorem get_of_debug {J : Type} (c : NOWPayments) (endpoint : String) (args : List PyVal)
    (transport : HttpRequest → HttpResponse) (loads : String → Option J)
    (h : c.debug_mode = true) :
    c.get endpoint args transport loads = (c.buildUrl endpoint args).map PyReturn.url := by
  unfold NOWPayments.get
  cases hb : c.buildUrl endpoint args <;> simp [h, Except.map]

theorem post_of_debug {J : Type} (c : NOWPayments) (endpoint : String)
    (data : List (String × PyVal))
    (transport : HttpRequest → HttpResponse) (loads : String → Option J)
    (h : c.debug_mode = true) :
    c.post endpoint data transport loads = (c.buildUrl endpoint []).map PyReturn.url := by
  unfold NOWPayments.post
  cases hb : c.buildUrl endpoint [] <;> simp [h, Except.map]

theorem buildUrl_congr_api_url (c1 c2 : NOWPayments) (endpoint : String)
    (args : List PyVal) (h : c1.api_url = c2.api_url) :
    c1.buildUrl endpoint args = c2.buildUrl endpoint args := by
  unfold NOWPayments.buildUrl NOWPayments.create_url
  rw [h]

theorem buildUrl_not_assert (c : NOWPayments) (endpoint : String) (args : List PyVal)
    (h : (NOWPayments.endpoints.lookup endpoint).isSome = true) :
    c.buildUrl endpoint args ≠ Except.error PyErr.assertionError := by
  unfold NOWPayments.buildUrl
  cases hl : NOWPayments.endpoints.lookup endpoint with
  | none => rw [hl] at h; exact absurd h (by simp)
  | some tmpl =>
    cases hc : c.create_url tmpl with
    | none => simp [hc]
    | some url0 =>
      by_cases ha : 1 ≤ args.length
      · cases hf : pyFormat url0 args with
        | none => simp [hc, ha, hf]
        | some url => simp [hc, ha, hf]
      · simp [hc, ha]

theorem get_not_assert {J : Type} (c : NOWPayments) (endpoint : String)
    (args : List PyVal) (transport : HttpRequest → HttpResponse)
    (loads : String → Option J)
    (h : (NOWPayments.endpoints.lookup endpoint).isSome = true) :
    c.get endpoint args transport loads ≠ Except.error PyErr.assertionError := by
  unfold NOWPayments.get
  cases hb : c.buildUrl endpoint args with
  | error e =>
    have : e ≠ PyErr.assertionError := by
      intro he
      exact buildUrl_not_assert c endpoint args h (he ▸ hb)
    simpa using this
  | ok url =>
    by_cases hd : c.debug_mode
    · simp [hd]
    · simp only [hd, if_false, Bool.false_eq_true]
      by_cases hs : (transport { url := url, headers := c.headers, data := [] }).status = 200
      · rw [if_pos hs]
        cases loads (transport { url := url, headers := c.headers, data := [] }).text <;>
          simp [decodeResult]
      · rw [if_neg hs]
        simp

theorem post_not_assert {J : Type} (c : NOWPayments) (endpoint : String)
    (data : List (String × PyVal)) (transport : HttpRequest → HttpResponse)
    (loads : String → Option J)
    (h : (NOWPayments.endpoints.lookup endpoint).isSome = true) :
    c.post endpoint data transport loads ≠ Except.error PyErr.assertionError := by
  unfold NOWPayments.post
  cases hb : c.buildUrl endpoint [] with
  | error e =>
    have : e ≠ PyErr.assertionError := by
      intro he
      exact buildUrl_not_assert c endpoint [] h (he ▸ hb)
    simpa using this
  | ok url =>
    by_cases hd : c.debug_mode
    · simp [hd]
    · simp only [hd, if_false, Bool.false_eq_true]
      cases loads (transport { url := url, headers := c.headers, data := data }).text <;>
        simp [decodeResult]

theorem buildUrl_assert (c : NOWPayments) (endpoint : String) (args : List PyVal)
    (h : NOWPayments.endpoints.lookup endpoint = none) :
    c.buildUrl endpoint args = Except.error PyErr.assertionError := by
  unfold NOWPayments.buildUrl
  rw [h]

theorem new_ok_elim (key : String) (sandbox debug : Bool) (c : NOWPayments)
    (h : NOWPayments.new key sandbox debug = Except.ok c) :
    keyRegexMatch key = true ∧
    c = { key := key,
          headers := [("x-api-key", key), ("User-Agent", "nowpay.py")],
          api_url := if sandbox then NOWPayments.SANDBOX_URL else NOWPayments.NORMAL_URL,
          debug_mode := debug } := by
  unfold NOWPayments.new at h
  by_cases hk : keyRegexMatch key
  · rw [if_pos hk] at h
    exact ⟨hk, (Except.ok.inj h).symm⟩
  · rw [if_neg hk] at h
    exact absurd h (by simp)

/-- Whether `__init__` completes without raising, as a Boolean observation
on `NOWPayments.new`. -/
def newSucceeds (key : String) (sandbox debug : Bool) : Bool :=
  match NOWPayments.new key sandbox debug with
  | .ok _ => true
  | .error _ => false

/-- A sample well-formed API key (the spec's own example). -/
def sampleKey : String := "abc1234-def5678-ghi9012-jkl3456"

/-- A second, different well-formed API key. -/
def sampleKey2 : String := "zzz9999-yyy8888-xxx7777-www6666"

/-- The client `new sampleKey false true` produces (production URL, debug
mode on). -/
def debugClient : NOWPayments :=
  { key := sampleKey,
    headers := [("x-api-key", sampleKey), ("User-Agent", "nowpay.py")],
    api_url := NOWPayments.NORMAL_URL,
    debug_mode := true }

/-- The client `new sampleKey2 false true` produces. -/
def debugClient2 : NOWPayments :=
  { key := sampleKey2,
    headers := [("x-api-key", sampleKey2), ("User-Agent", "nowpay.py")],
    api_url := NOWPayments.NORMAL_URL,
    debug_mode := true }

/-- The client `new sampleKey false false` produces (debug mode off). -/
def liveClient : NOWPayments :=
  { debugClient with debug_mode := false }

/-- A transport that always answers HTTP 404. -/
def t404 : HttpRequest → HttpResponse := fun _ => { status := 404, text := "body404" }

/-- A transport that always answers HTTP 200. -/
def t200 : HttpRequest → HttpResponse := fun _ => { status := 200, text := "body200" }

/-- A JSON codec that decodes every body (to its length). -/
def loadsLen : String → Option Nat := fun s => some s.length

/-- A JSON codec that decodes no body. -/
def loadsNone : String → Option Nat := fun _ => none

/-- C1: the claim states an if-and-only-if — construction succeeds exactly
for strings that are four dash-separated alphanumeric groups of length 7 —
but the code's `match(self.key_regex, key).group(0) == key` discards the
result of the `== key` comparison (the comparison is the evident intent of
the line), and `re.match` only anchors at the start, so a pattern-prefixed
key with trailing garbage is accepted; moreover `[A-z]` also accepts the
non-alphanumeric ASCII characters between `Z` and `a`, such as `_`. The
spec example key succeeds and `"short-key"` fails as claimed, but
`"abc1234-def5678-ghi9012-jkl3456XTRA"` and
`"_______-_______-_______-_______"` are accepted although neither matches
the spec's pattern (`specKeyOk`). -/
theorem C1_key_validation_code_bug :
    newSucceeds "abc1234-def5678-ghi9012-jkl3456" false false = true
    ∧ specKeyOk "abc1234-def5678-ghi9012-jkl3456" = true
    ∧ newSucceeds "short-key" false false = false
    ∧ specKeyOk "short-key" = false
    ∧ newSucceeds "abc1234-def5678-ghi9012-jkl3456XTRA" false false = true
    ∧ specKeyOk "abc1234-def5678-ghi9012-jkl3456XTRA" = false
    ∧ newSucceeds "_______-_______-_______-_______" false false = true
    ∧ specKeyOk "_______-_______-_______-_______" = false := by
  decide

/-- C2: with debug mode off, on any registered operation (one whose URL
construction succeeds), a GET whose response status is 200 returns the
JSON-decoded body (raising on undecodable bodies), a GET whose response
status is anything else returns `None`, and a POST JSON-decodes and
returns the body regardless of the status code. -/
theorem C2_get_post_status_asymmetry (J : Type) (c : NOWPayments) (endpoint : String)
    (args : List PyVal) (data : List (String × PyVal))
    (transport : HttpRequest → HttpResponse) (loads : String → Option J)
    (hdbg : c.debug_mode = false) :
    (∀ url, c.buildUrl endpoint args = Except.ok url →
      ((transport { url := url, headers := c.headers, data := [] }).status = 200 →
        c.get endpoint args transport loads =
          decodeResult (loads (transport { url := url, headers := c.headers, data := [] }).text))
      ∧ ((transport { url := url, headers := c.headers, data := [] }).status ≠ 200 →
        c.get endpoint args transport loads = Except.ok PyReturn.noneVal))
    ∧ (∀ url, c.buildUrl endpoint [] = Except.ok url →
      c.post endpoint data transport loads =
        decodeResult (loads (transport { url := url, headers := c.headers, data := data }).text)) := by
  constructor
  · intro url hb
    constructor
    · intro h200
      unfold NOWPayments.get
      simp [hb, hdbg, h200]
    · intro hs
      unfold NOWPayments.get
      simp [hb, hdbg, hs]
  · intro url hb
    unfold NOWPayments.post
    simp [hb, hdbg]

theorem C2_witness :
    liveClient.get "STATUS" [] t404 loadsLen = Except.ok PyReturn.noneVal
    ∧ liveClient.get "STATUS" [] t200 loadsLen = Except.ok (PyReturn.json 7)
    ∧ liveClient.post "STATUS" [] t404 loadsLen = Except.ok (PyReturn.json 7) := by
  refine ⟨?_, ?_, ?_⟩
  · exact ((C2_get_post_status_asymmetry Nat liveClient "STATUS" [] [] t404 loadsLen
      rfl).1 "https://api.nowpayments.io/v1/status" (by rfl)).2 (by decide)
  · exact (((C2_get_post_status_asymmetry Nat liveClient "STATUS" [] [] t200 loadsLen
      rfl).1 "https://api.nowpayments.io/v1/status" (by rfl)).1 (by decide)).trans (by rfl)
  · exact ((C2_get_post_status_asymmetry Nat liveClient "STATUS" [] [] t404 loadsLen
      rfl).2 "https://api.nowpayments.io/v1/status" (by rfl)).trans (by rfl)

/-- C3: with debug mode on, every operation returns the fully resolved URL
as a string and performs no network I/O (the result does not depend on the
transport or the codec); the base URL is the production template when
`sandbox = false` and the sandbox template when `sandbox = true`, with
positional arguments substituted left-to-right; in particular
`estimate(100, "usd", "btc")` returns exactly the claimed URL in each
mode. -/
theorem C3_debug_mode_urls (J : Type) (key : String) (sandbox : Bool) (c : NOWPayments)
    (transport : HttpRequest → HttpResponse) (loads : String → Option J)
    (h : NOWPayments.new key sandbox true = Except.ok c) :
    (∀ endpoint args url, c.buildUrl endpoint args = Except.ok url →
      c.get endpoint args transport loads = Except.ok (PyReturn.url url))
    ∧ (∀ endpoint data url, c.buildUrl endpoint [] = Except.ok url →
      c.post endpoint data transport loads = Except.ok (PyReturn.url url))
    ∧ c.estimate (PyVal.int 100) "usd" "btc" transport loads =
        Except.ok (PyReturn.url
          (if sandbox then
            "https://api-sandbox.nowpayments.io/v1/estimate?amount=100&currency_from=usd&currency_to=btc"
          else
            "https://api.nowpayments.io/v1/estimate?amount=100&currency_from=usd&currency_to=btc")) := by
  obtain ⟨hk, hc⟩ := new_ok_elim key sandbox true c h
  have hd : c.debug_mode = true := by rw [hc]
  refine ⟨?_, ?_, ?_⟩
  · intro endpoint args url hb
    rw [get_of_debug c endpoint args transport loads hd, hb]
    rfl
  · intro endpoint data url hb
    rw [post_of_debug c endpoint data transport loads hd, hb]
    rfl
  · subst hc
    cases sandbox
    · rfl
    · rfl

theorem C3_witness :
    debugClient.estimate (PyVal.int 100) "usd" "btc" t404 loadsLen =
      Except.ok (PyReturn.url
        "https://api.nowpayments.io/v1/estimate?amount=100&currency_from=usd&currency_to=btc") := by
  exact ((C3_debug_mode_urls Nat sampleKey false debugClient t404 loadsLen (by rfl)).2.2).trans
    (by rfl)

/-- Whether string `s` ends with string `t`, computed on the character
lists (the library's `String.endsWith` does not reduce in the kernel). -/
def strEndsWith (s t : String) : Bool :=
  s.data.reverse.take t.data.length = t.data.reverse

/-- C4: calling `payment_status(12345)` in debug mode returns the resolved
URL, which ends in `/v1/payment/12345` (the `payment/\x7b\x7d` template with
the payment id substituted), and performs no network I/O (the transport
and codec are arbitrary and unused). -/
theorem C4_payment_status_debug (J : Type) (key : String) (sandbox : Bool)
    (c : NOWPayments) (transport : HttpRequest → HttpResponse)
    (loads : String → Option J)
    (h : NOWPayments.new key sandbox true = Except.ok c) :
    ∃ u, c.payment_status 12345 transport loads = Except.ok (PyReturn.url u)
      ∧ strEndsWith u "/v1/payment/12345" = true := by
  obtain ⟨hk, hc⟩ := new_ok_elim key sandbox true c h
  subst hc
  cases sandbox
  · exact ⟨"https://api.nowpayments.io/v1/payment/12345", by rfl, by decide⟩
  · exact ⟨"https://api-sandbox.nowpayments.io/v1/payment/12345", by rfl, by decide⟩

theorem C4_witness :
    debugClient.payment_status 12345 t404 loadsLen =
      Except.ok (PyReturn.url "https://api.nowpayments.io/v1/payment/12345")
    ∧ strEndsWith "https://api.nowpayments.io/v1/payment/12345" "/v1/payment/12345" = true := by
  obtain ⟨u, hu, he⟩ :=
    C4_payment_status_debug Nat sampleKey false debugClient t404 loadsLen (by rfl)
  have hcalc : debugClient.payment_status 12345 t404 loadsLen =
      Except.ok (PyReturn.url "https://api.nowpayments.io/v1/payment/12345") := by rfl
  have hu2 : u = "https://api.nowpayments.io/v1/payment/12345" :=
    PyReturn.url.inj (Except.ok.inj (hu.symm.trans hcalc))
  exact ⟨hcalc, hu2 ▸ he⟩

/-- C5: `create_payment` builds a body containing exactly the three
required fields `price_amount`, `price_currency`, `pay_currency` followed
by every extra keyword field verbatim (keyword names are distinct and,
at the call boundary, disjoint from the required three), posts it to the
`PAYMENT` operation, and in debug mode returns the URL of the `payment`
operation only — an expression independent of the body. -/
theorem C5_create_payment_builds_body (J : Type) (c : NOWPayments)
    (price_amount : PyVal) (price_currency pay_currency : String)
    (kwargs : List (String × PyVal))
    (transport : HttpRequest → HttpResponse) (loads : String → Option J)
    (hdisj : ∀ p ∈ kwargs, p.1 ∉ requiredPaymentFields)
    (hnodup : (kwargs.map Prod.fst).Nodup) :
    NOWPayments.paymentBody price_amount price_currency pay_currency kwargs =
      ("price_amount", price_amount) :: ("price_currency", PyVal.str price_currency)
        :: ("pay_currency", PyVal.str pay_currency) :: kwargs
    ∧ c.create_payment price_amount price_currency pay_currency kwargs transport loads =
        c.post "PAYMENT"
          (NOWPayments.paymentBody price_amount price_currency pay_currency kwargs)
          transport loads
    ∧ (c.debug_mode = true →
        c.create_payment price_amount price_currency pay_currency kwargs transport loads =
          (c.buildUrl "PAYMENT" []).map PyReturn.url) := by
  have hany : (kwargs.any fun p => p.1 ∈ requiredPaymentFields) = false := by
    rw [List.any_eq_false]
    intro p hp
    simpa using hdisj p hp
  refine ⟨?_, ?_, ?_⟩
  · unfold NOWPayments.paymentBody
    rw [dictUpdate_eq_append kwargs _ ?_ hnodup]
    · rfl
    · intro p hp q hq
      have hq1 : q.1 ∈ requiredPaymentFields := by
        simp only [List.mem_cons, List.not_mem_nil, or_false] at hq
        rcases hq with h1 | h1 | h1 <;> (rw [h1]; simp [requiredPaymentFields])
      intro he
      exact hdisj p hp (he ▸ hq1)
  · unfold NOWPayments.create_payment
    simp [hany]
  · intro hd
    unfold NOWPayments.create_payment
    simp only [hany, Bool.false_eq_true, if_false]
    exact post_of_debug c "PAYMENT" _ transport loads hd

theorem C5_witness :
    NOWPayments.paymentBody (PyVal.int 100) "usd" "btc" [("order_id", PyVal.str "x1")] =
      [("price_amount", PyVal.int 100), ("price_currency", PyVal.str "usd"),
       ("pay_currency", PyVal.str "btc"), ("order_id", PyVal.str "x1")]
    ∧ debugClient.create_payment (PyVal.int 100) "usd" "btc"
        [("order_id", PyVal.str "x1")] t404 loadsLen =
        Except.ok (PyReturn.url "https://api.nowpayments.io/v1/payment") := by
  have h := C5_create_payment_builds_body Nat debugClient (PyVal.int 100) "usd" "btc"
    [("order_id", PyVal.str "x1")] t404 loadsLen (by decide) (by decide)
  exact ⟨h.1, (h.2.2 rfl).trans (by rfl)⟩

/-- C6: for every `operationName` that is not a key of the fixed endpoint
registry, both `get` and `post` fail with the assertion before any URL
construction or network I/O (the result is the assertion failure for every
client, argument list, body, transport and codec); for every
`operationName` that is a key, the assertion passes — neither `get` nor
`post` can return the assertion failure. -/
theorem C6_registry_assertion (J : Type) (c : NOWPayments) (endpoint : String)
    (args : List PyVal) (data : List (String × PyVal))
    (transport : HttpRequest → HttpResponse) (loads : String → Option J) :
    (NOWPayments.endpoints.lookup endpoint = none →
      c.get endpoint args transport loads = Except.error PyErr.assertionError
      ∧ c.post endpoint data transport loads = Except.error PyErr.assertionError)
    ∧ ((NOWPayments.endpoints.lookup endpoint).isSome = true →
      c.get endpoint args transport loads ≠ Except.error PyErr.assertionError
      ∧ c.post endpoint data transport loads ≠ Except.error PyErr.assertionError) := by
  constructor
  · intro h
    constructor
    · unfold NOWPayments.get
      rw [buildUrl_assert c endpoint args h]
    · unfold NOWPayments.post
      rw [buildUrl_assert c endpoint [] h]
  · intro h
    exact ⟨get_not_assert c endpoint args transport loads h,
           post_not_assert c endpoint data transport loads h⟩

theorem C6_witness :
    liveClient.get "BOGUS" [] t404 loadsLen = Except.error PyErr.assertionError
    ∧ liveClient.get "STATUS" [] t404 loadsLen ≠ Except.error PyErr.assertionError := by
  exact ⟨((C6_registry_assertion Nat liveClient "BOGUS" [] [] t404 loadsLen).1 (by rfl)).1,
         ((C6_registry_assertion Nat liveClient "STATUS" [] [] t404 loadsLen).2 (by rfl)).1⟩

/-- C7: successful construction is pure (the embedding of `__init__` is a
total function involving no transport) and initialises the header dict to
exactly two entries — `x-api-key` mapped to the given key and the fixed
`User-Agent: nowpay.py` string; every subsequent `get` and `post` probes
the transport only at requests carrying exactly these headers, so two
transports that agree on all requests with these headers are
indistinguishable. -/
theorem C7_construction_headers (J : Type) (key : String) (sandbox debug : Bool)
    (c : NOWPayments)
    (h : NOWPayments.new key sandbox debug = Except.ok c) :
    c.headers = [("x-api-key", key), ("User-Agent", "nowpay.py")]
    ∧ (∀ endpoint args (t1 t2 : HttpRequest → HttpResponse) (loads : String → Option J),
        (∀ r, r.headers = c.headers → t1 r = t2 r) →
        c.get endpoint args t1 loads = c.get endpoint args t2 loads)
    ∧ (∀ endpoint data (t1 t2 : HttpRequest → HttpResponse) (loads : String → Option J),
        (∀ r, r.headers = c.headers → t1 r = t2 r) →
        c.post endpoint data t1 loads = c.post endpoint data t2 loads) := by
  obtain ⟨hk, hc⟩ := new_ok_elim key sandbox debug c h
  refine ⟨by rw [hc], ?_, ?_⟩
  · intro endpoint args t1 t2 loads ht
    unfold NOWPayments.get
    cases c.buildUrl endpoint args with
    | error e => rfl
    | ok url =>
      by_cases hd : c.debug_mode = true
      · simp [hd]
      · simp only [hd, if_false]
        rw [ht { url := url, headers := c.headers, data := [] } rfl]
  · intro endpoint data t1 t2 loads ht
    unfold NOWPayments.post
    cases c.buildUrl endpoint [] with
    | error e => rfl
    | ok url =>
      by_cases hd : c.debug_mode = true
      · simp [hd]
      · simp only [hd, if_false]
        rw [ht { url := url, headers := c.headers, data := data } rfl]

theorem C7_witness :
    liveClient.headers =
      [("x-api-key", "abc1234-def5678-ghi9012-jkl3456"), ("User-Agent", "nowpay.py")] :=
  (C7_construction_headers Nat "abc1234-def5678-ghi9012-jkl3456" false false liveClient
    (by rfl)).1

/-- C8: every operation name the seven named wrappers use internally
(`STATUS`, `CURRENCIES`, `MERCHANT_COINS`, `ESTIMATE`, `PAYMENT`,
`PAYMENT_STATUS`, `MIN_AMOUNT`) is a key of the endpoint registry, so no
wrapper call can ever produce the registry-membership assertion failure,
whatever the client, arguments, transport and codec. -/
theorem C8_wrappers_registered (J : Type) (c : NOWPayments)
    (transport : HttpRequest → HttpResponse) (loads : String → Option J)
    (amount : PyVal) (currency_from currency_to : String) (payment_id : Int)
    (price_amount : PyVal) (price_currency pay_currency : String)
    (kwargs : List (String × PyVal)) :
    c.status transport loads ≠ Except.error PyErr.assertionError
    ∧ c.currencies transport loads ≠ Except.error PyErr.assertionError
    ∧ c.merchant_coins transport loads ≠ Except.error PyErr.assertionError
    ∧ c.estimate amount currency_from currency_to transport loads ≠
        Except.error PyErr.assertionError
    ∧ c.create_payment price_amount price_currency pay_currency kwargs transport loads ≠
        Except.error PyErr.assertionError
    ∧ c.payment_status payment_id transport loads ≠ Except.error PyErr.assertionError
    ∧ c.min_amount currency_from currency_to transport loads ≠
        Except.error PyErr.assertionError := by
  refine ⟨?_, ?_, ?_, ?_, ?_, ?_, ?_⟩
  · exact get_not_assert c "STATUS" [] transport loads (by rfl)
  · exact get_not_assert c "CURRENCIES" [] transport loads (by rfl)
  · exact get_not_assert c "MERCHANT_COINS" [] transport loads (by rfl)
  · exact get_not_assert c "ESTIMATE" [amount, .str currency_from, .str currency_to]
      transport loads (by rfl)
  · unfold NOWPayments.create_payment
    by_cases hkw : (kwargs.any fun p => p.1 ∈ requiredPaymentFields) = true
    · simp [hkw]
    · simp only [hkw, if_false]
      exact post_not_assert c "PAYMENT" _ transport loads (by rfl)
  · exact get_not_assert c "PAYMENT_STATUS" [.int payment_id] transport loads (by rfl)
  · exact get_not_assert c "MIN_AMOUNT" [.str currency_from, .str currency_to]
      transport loads (by rfl)

/-- C9: in debug mode the returned value is determined by the operation
name, the positional arguments and the sandbox flag alone: two clients
constructed with different API keys but the same sandbox flag, called with
different transports, codecs and (for `post`) different bodies, return
identical results. -/
theorem C9_debug_key_independence (J : Type) (k1 k2 : String) (sandbox : Bool)
    (c1 c2 : NOWPayments)
    (h1 : NOWPayments.new k1 sandbox true = Except.ok c1)
    (h2 : NOWPayments.new k2 sandbox true = Except.ok c2)
    (endpoint : String) (args : List PyVal)
    (data1 data2 : List (String × PyVal))
    (t1 t2 : HttpRequest → HttpResponse) (l1 l2 : String → Option J) :
    c1.get endpoint args t1 l1 = c2.get endpoint args t2 l2
    ∧ c1.post endpoint data1 t1 l1 = c2.post endpoint data2 t2 l2 := by
  obtain ⟨hk1, hc1⟩ := new_ok_elim k1 sandbox true c1 h1
  obtain ⟨hk2, hc2⟩ := new_ok_elim k2 sandbox true c2 h2
  have hd1 : c1.debug_mode = true := by rw [hc1]
  have hd2 : c2.debug_mode = true := by rw [hc2]
  have hau : c1.api_url = c2.api_url := by rw [hc1, hc2]
  constructor
  · rw [get_of_debug c1 endpoint args t1 l1 hd1, get_of_debug c2 endpoint args t2 l2 hd2,
        buildUrl_congr_api_url c1 c2 endpoint args hau]
  · rw [post_of_debug c1 endpoint data1 t1 l1 hd1,
        post_of_debug c2 endpoint data2 t2 l2 hd2,
        buildUrl_congr_api_url c1 c2 endpoint [] hau]

theorem C9_witness :
    debugClient.get "STATUS" [] t404 loadsLen = debugClient2.get "STATUS" [] t200 loadsNone :=
  (C9_debug_key_independence Nat sampleKey sampleKey2 false debugClient debugClient2
    (by rfl) (by rfl) "STATUS" [] [] [] t404 t200 loadsLen loadsNone).1

/-- C10: the extra keyword fields of `create_payment` can never remove or
overwrite the three required fields: a keyword argument duplicating one of
the three names is rejected at the call boundary with a `TypeError`, and
otherwise the assembled body maps `price_amount`, `price_currency` and
`pay_currency` to exactly the three positional arguments. -/
theorem C10_required_fields_preserved (J : Type) (c : NOWPayments)
    (price_amount : PyVal) (price_currency pay_currency : String)
    (kwargs : List (String × PyVal))
    (transport : HttpRequest → HttpResponse) (loads : String → Option J) :
    ((kwargs.any fun p => p.1 ∈ requiredPaymentFields) = true →
      c.create_payment price_amount price_currency pay_currency kwargs transport loads =
        Except.error PyErr.typeError)
    ∧ ((kwargs.any fun p => p.1 ∈ requiredPaymentFields) = false →
      dictGet (NOWPayments.paymentBody price_amount price_currency pay_currency kwargs)
          "price_amount" = some price_amount
      ∧ dictGet (NOWPayments.paymentBody price_amount price_currency pay_currency kwargs)
          "price_currency" = some (PyVal.str price_currency)
      ∧ dictGet (NOWPayments.paymentBody price_amount price_currency pay_currency kwargs)
          "pay_currency" = some (PyVal.str pay_currency)) := by
  constructor
  · intro h
    unfold NOWPayments.create_payment
    simp [h]
  · intro h
    rw [List.any_eq_false] at h
    have hne : ∀ k, k ∈ requiredPaymentFields → ∀ p ∈ kwargs, p.1 ≠ k := by
      intro k hk p hp he
      have := h p hp
      rw [he] at this
      simp only [decide_eq_true_eq] at this
      exact this hk
    unfold NOWPayments.paymentBody
    refine ⟨?_, ?_, ?_⟩
    · rw [dictGet_dictUpdate_not_mem kwargs _ _
        (hne "price_amount" (by simp [requiredPaymentFields]))]
      rfl
    · rw [dictGet_dictUpdate_not_mem kwargs _ _
        (hne "price_currency" (by simp [requiredPaymentFields]))]
      simp [dictGet]
    · rw [dictGet_dictUpdate_not_mem kwargs _ _
        (hne "pay_currency" (by simp [requiredPaymentFields]))]
      simp [dictGet]

theorem C10_witness :
    debugClient.create_payment (PyVal.int 100) "usd" "btc"
      [("price_amount", PyVal.int 5)] t404 loadsLen = Except.error PyErr.typeError
    ∧ dictGet (NOWPayments.paymentBody (PyVal.int 100) "usd" "btc"
        [("order_id", PyVal.str "x1")]) "price_amount" = some (PyVal.int 100) := by
  exact ⟨(C10_required_fields_preserved Nat debugClient (PyVal.int 100) "usd" "btc"
            [("price_amount", PyVal.int 5)] t404 loadsLen).1 (by decide),
         ((C10_required_fields_preserved Nat debugClient (PyVal.int 100) "usd" "btc"
            [("order_id", PyVal.str "x1")] t404 loadsLen).2 (by decide)).1⟩
